import Mathlib

/-!
Verification of the NAV-analysis pipeline in `src/core/nav_analyzer.py`
(class `NAVAnalyzer`) of the repository `mdalvi/mutual-fund-mantis`.

The development shallowly embeds the three nontrivial parts of the source:
the retry-fetch client (`fetch_nav_data`, decorated with tenacity
`@retry(stop=stop_after_attempt(5), wait=wait_random(min=1, max=2))`),
the series builder (`process_nav_data`), and the batch orchestrator
(`analyze_securities`), and proves properties about them.

NAV values and statistic values are floating-point numbers in the source;
no property proved here depends on floating-point arithmetic, so they are
modelled as exact rationals carried around unchanged.  Wall-clock effects
(the jittered inter-retry sleep) do not influence any value computed by
the code and are not modelled.
-/

namespace NavAnalyzer

/-- Model of a `pandas.Timestamp`: `pd.to_datetime(df["timestamp"], unit="s")`
interprets the raw integer as seconds since the Unix epoch, so the derived
calendar timestamp is determined by (and ordered like) that integer. -/
structure DateTime where
  secondsSinceEpoch : Int
deriving DecidableEq

/-- Conversion of a single raw timestamp, `pd.to_datetime(ts, unit="s")`. -/
def to_datetime (ts : Int) : DateTime := ⟨ts⟩

/-- Embedding of `process_nav_data` on a well-formed payload.  The source
builds `pd.DataFrame(nav_data, columns=["timestamp", "nav"])`, derives
`df["date"] = pd.to_datetime(df["timestamp"], unit="s")` and returns
`pd.Series(df["nav"].values, index=df["date"])`.  The resulting series
holds, in storage and traversal order, exactly the input pairs in input
order with the timestamp replaced by the derived datetime; no sorting step
occurs anywhere in the function. -/
def process_nav_data {α : Type} (nav_data : List (Int × α)) : List (DateTime × α) :=
  nav_data.map (fun p => (to_datetime p.1, p.2))

/-- Traversal of a series visits its entries in chronological
(non-decreasing timestamp) order. -/
def chronologicalTraversal {α : Type} (s : List (DateTime × α)) : Prop :=
  List.Pairwise (fun a b => a.1.secondsSinceEpoch ≤ b.1.secondsSinceEpoch) s

/-- Raw payload pairs are already in non-decreasing timestamp order. -/
def inputChronological {α : Type} (l : List (Int × α)) : Prop :=
  List.Pairwise (fun a b => a.1 ≤ b.1) l

/-- C1 (counterexample): on the unsorted payload `[[200, 10.0], [100, 9.0]]`
the series produced by `process_nav_data` is traversed with timestamp 200
first and timestamp 100 second — it is not indexed chronologically, because
the source never sorts the index. -/
theorem process_nav_data_not_chronological :
    (process_nav_data [((200 : Int), (10 : ℚ)), (100, 9)]).map
        (fun e => e.1.secondsSinceEpoch) = [200, 100] ∧
    ¬ chronologicalTraversal (process_nav_data [((200 : Int), (10 : ℚ)), (100, 9)]) := by
  constructor
  · rfl
  · unfold chronologicalTraversal process_nav_data
    decide

/-- C1 (amended): the series produced by `process_nav_data` preserves the
input order of the pairs, so its traversal is chronological exactly when
the raw payload was already in non-decreasing timestamp order; the builder
itself performs no re-sorting. -/
theorem process_nav_data_chronological_iff {α : Type} (nav_data : List (Int × α)) :
    chronologicalTraversal (process_nav_data nav_data) ↔ inputChronological nav_data := by
  simp [chronologicalTraversal, inputChronological, process_nav_data,
    List.pairwise_map, to_datetime]

/-- C10: the series produced by `process_nav_data` has exactly one entry per
input pair — its length equals the input length, the traversed timestamps
are the input timestamps in order and with multiplicity (so pairs sharing a
timestamp all remain as distinct entries), and the values are the input
values in order. -/
theorem process_nav_data_preserves_pairs {α : Type} (nav_data : List (Int × α)) :
    (process_nav_data nav_data).length = nav_data.length ∧
    (process_nav_data nav_data).map (fun e => e.1.secondsSinceEpoch) =
      nav_data.map Prod.fst ∧
    (process_nav_data nav_data).map (fun e => e.2) = nav_data.map Prod.snd ∧
    ∀ t : Int,
      ((process_nav_data nav_data).map (fun e => e.1.secondsSinceEpoch)).count t =
        (nav_data.map Prod.fst).count t := by
  have hmap : (process_nav_data nav_data).map (fun e => e.1.secondsSinceEpoch) =
      nav_data.map Prod.fst := by
    simp [process_nav_data, to_datetime]
  refine ⟨?_, hmap, ?_, ?_⟩
  · simp [process_nav_data]
  · simp [process_nav_data]
  · intro t
    rw [hmap]

/-! ## Retry-fetch client

Embedding of `fetch_nav_data` and its tenacity decoration
`@retry(stop=stop_after_attempt(5), wait=wait_random(min=1, max=2))`. -/

/-- One raw row of the JSON `data` array: either a well-formed
`[timestamp, nav]` pair, or a row whose shape does not fit the
`["timestamp", "nav"]` two-column frame (wrong arity or non-numeric
entries), which makes `process_nav_data` raise in the source. -/
inductive RawRow where
  | pair (ts : Int) (nav : ℚ)
  | malformed
deriving DecidableEq

/-- Model of a parsed JSON response body as accessed by the source:
`data.get("status")` (`none` when the `"status"` key is absent) and the
`"data"` member (`dataField = none` models `"data" not in data`). -/
structure Payload where
  status : Option String
  dataField : Option (List RawRow)
deriving DecidableEq

/-- Observable outcome of one `requests.get(url, headers=...)` call.
`transportFailure` models `requests.get` itself raising a network error;
`ok code body` is an HTTP response with status `code`, where `body = none`
means the body is not parseable as a structured payload, so
`response.json()` raises. -/
inductive Response where
  | transportFailure
  | ok (statusCode : Nat) (body : Option Payload)
deriving DecidableEq

/-- Exceptions a single fetch attempt can raise: the transport error from
`requests.get`, the HTTPError from `response.raise_for_status()` on a
4xx/5xx status, the decode error from `response.json()`, or the
`ValueError(f"Invalid response format for ISIN {isin}")` raised by the
shape validation. -/
inductive FetchError where
  | transportError
  | httpStatusError (code : Nat)
  | jsonDecodeError
  | invalidFormat (isin : String)
deriving DecidableEq

/-- Body of `fetch_nav_data` for one attempt (the function tenacity wraps):
`requests.get`, then `response.raise_for_status()` (which raises exactly
when the status code is in 400..599), then `response.json()`, then
`if not data.get("status") == "success" or "data" not in data: raise
ValueError(...)`; on success the parsed payload is returned. -/
def fetchAttempt (isin : String) (resp : Response) : Except FetchError Payload :=
  match resp with
  | .transportFailure => .error .transportError
  | .ok code body =>
    if 400 ≤ code ∧ code < 600 then .error (.httpStatusError code)
    else
      match body with
      | none => .error .jsonDecodeError
      | some p =>
        if ¬ p.status = some "success" ∨ p.dataField = none then
          .error (.invalidFormat isin)
        else .ok p

/-- Exceptions that can escape the tenacity-decorated `fetch_nav_data` to
its caller: either an attempt's own exception re-raised as-is, or
`tenacity.RetryError` wrapping the final attempt (tenacity's behaviour
when its `reraise` option is left at its default `False`, as here). -/
inductive RaisedError where
  | attemptError (e : FetchError)
  | retryExhausted (lastAttempt : FetchError)
deriving DecidableEq

/-- Tenacity retry loop with `stop=stop_after_attempt`: attempt `idx`
(0-based) runs; a successful attempt returns its value at once; a failed
attempt is followed by the next attempt while retries remain (`fuel`) —
after a jittered `wait_random(min=1, max=2)` sleep that does not affect
the produced value — and once the attempt cap is reached the loop raises
`RetryError` wrapping the last attempt's exception.  Returns the number of
attempts actually made together with the outcome. -/
def retryLoop {α : Type} (o : Nat → Except FetchError α) :
    Nat → Nat → Nat × Except RaisedError α
  | idx, 0 =>
    match o idx with
    | .ok v => (idx + 1, .ok v)
    | .error e => (idx + 1, .error (.retryExhausted e))
  | idx, fuel + 1 =>
    match o idx with
    | .ok v => (idx + 1, .ok v)
    | .error _ => retryLoop o (idx + 1) fuel

/-- Embedding of the decorated `fetch_nav_data`: up to 5 attempts
(`stop_after_attempt(5)`, i.e. 4 retries after the first attempt), where
`responses n` is the upstream's behaviour on the (n+1)-st attempt.
Returns the number of attempts made and either the validated payload or
the escaping exception. -/
def fetch_nav_data (isin : String) (responses : Nat → Response) :
    Nat × Except RaisedError Payload :=
  retryLoop (fun n => fetchAttempt isin (responses n)) 0 4

deriving instance DecidableEq for Except

/-- An attempt with this response raises (rather than returning a payload). -/
def attemptFails (isin : String) (resp : Response) : Bool :=
  match fetchAttempt isin resp with
  | .error _ => true
  | .ok _ => false

theorem retryLoop_ok {α : Type} (o : Nat → Except FetchError α) (idx fuel : Nat)
    (v : α) (h : o idx = .ok v) : retryLoop o idx fuel = (idx + 1, .ok v) := by
  cases fuel <;> simp [retryLoop, h]

theorem retryLoop_shift {α : Type} (o : Nat → Except FetchError α) (idx fuel : Nat)
    (e : FetchError) (h : o idx = .error e) :
    retryLoop o idx (fuel + 1) = retryLoop o (idx + 1) fuel := by
  simp [retryLoop, h]

theorem retryLoop_exhausted {α : Type} (o : Nat → Except FetchError α) (idx : Nat)
    (e : FetchError) (h : o idx = .error e) :
    retryLoop o idx 0 = (idx + 1, .error (.retryExhausted e)) := by
  simp [retryLoop, h]

theorem retryLoop_congr {α : Type} (o o' : Nat → Except FetchError α) (fuel : Nat) :
    ∀ idx, (∀ i, idx ≤ i → i ≤ idx + fuel → o i = o' i) →
      retryLoop o idx fuel = retryLoop o' idx fuel := by
  induction fuel with
  | zero =>
    intro idx h
    have hidx : o idx = o' idx := h idx le_rfl (by omega)
    simp only [retryLoop, hidx]
  | succ fuel ih =>
    intro idx h
    have hidx : o idx = o' idx := h idx le_rfl (by omega)
    simp only [retryLoop, hidx]
    cases o' idx with
    | ok v => rfl
    | error _ => exact ih (idx + 1) (fun i h1 h2 => h i (by omega) (by omega))

theorem attemptFails_iff (isin : String) (resp : Response) :
    attemptFails isin resp = true ↔ ∃ e, fetchAttempt isin resp = .error e := by
  unfold attemptFails
  cases h : fetchAttempt isin resp <;> simp

/-- C2: fetch retrieval is attempted at most 5 times.  If the first 4
attempts each fail and the 5th succeeds with payload `p`, `fetch_nav_data`
makes exactly 5 attempts and returns `p` normally; if all 5 attempts fail,
it makes exactly 5 attempts and fails (raising the retry-exhaustion error)
without a 6th attempt; and the result never depends on what the upstream
would have answered beyond the 5th attempt. -/
theorem fetch_nav_data_attempt_cap :
    (∀ (isin : String) (responses : Nat → Response) (p : Payload),
      (∀ i, i < 4 → attemptFails isin (responses i) = true) →
      fetchAttempt isin (responses 4) = .ok p →
      fetch_nav_data isin responses = (5, .ok p)) ∧
    (∀ (isin : String) (responses : Nat → Response),
      (∀ i, i < 5 → attemptFails isin (responses i) = true) →
      ∃ e, fetch_nav_data isin responses = (5, .error (.retryExhausted e))) ∧
    (∀ (isin : String) (responses responses' : Nat → Response),
      (∀ i, i < 5 → responses i = responses' i) →
      fetch_nav_data isin responses = fetch_nav_data isin responses') := by
  refine ⟨?_, ?_, ?_⟩
  · intro isin responses p hfail hok
    obtain ⟨e0, h0⟩ := (attemptFails_iff _ _).1 (hfail 0 (by omega))
    obtain ⟨e1, h1⟩ := (attemptFails_iff _ _).1 (hfail 1 (by omega))
    obtain ⟨e2, h2⟩ := (attemptFails_iff _ _).1 (hfail 2 (by omega))
    obtain ⟨e3, h3⟩ := (attemptFails_iff _ _).1 (hfail 3 (by omega))
    unfold fetch_nav_data
    rw [retryLoop_shift _ 0 3 e0 h0, retryLoop_shift _ 1 2 e1 h1,
      retryLoop_shift _ 2 1 e2 h2, retryLoop_shift _ 3 0 e3 h3,
      retryLoop_ok _ 4 0 p hok]
  · intro isin responses hfail
    obtain ⟨e0, h0⟩ := (attemptFails_iff _ _).1 (hfail 0 (by omega))
    obtain ⟨e1, h1⟩ := (attemptFails_iff _ _).1 (hfail 1 (by omega))
    obtain ⟨e2, h2⟩ := (attemptFails_iff _ _).1 (hfail 2 (by omega))
    obtain ⟨e3, h3⟩ := (attemptFails_iff _ _).1 (hfail 3 (by omega))
    obtain ⟨e4, h4⟩ := (attemptFails_iff _ _).1 (hfail 4 (by omega))
    refine ⟨e4, ?_⟩
    unfold fetch_nav_data
    rw [retryLoop_shift _ 0 3 e0 h0, retryLoop_shift _ 1 2 e1 h1,
      retryLoop_shift _ 2 1 e2 h2, retryLoop_shift _ 3 0 e3 h3,
      retryLoop_exhausted _ 4 e4 h4]
  · intro isin responses responses' hsame
    unfold fetch_nav_data
    exact retryLoop_congr _ _ 4 0
      (fun i h1 h2 => by rw [hsame i (by omega)])

/-- Concrete all-success payload used by the witnesses. -/
def wPayload : Payload :=
  ⟨some "success", some [RawRow.pair 100 10, RawRow.pair 200 11]⟩

/-- Concrete response pattern: the first 4 attempts hit a transport
failure, the 5th returns a valid payload. -/
def wRespLateSuccess : Nat → Response := fun n =>
  if n < 4 then Response.transportFailure else Response.ok 200 (some wPayload)

/-- Concrete response pattern: every attempt answers HTTP 500. -/
def wRespAllFail : Nat → Response := fun _ => Response.ok 500 none

theorem fetch_nav_data_attempt_cap_witness :
    fetch_nav_data "INF174K01LS2" wRespLateSuccess = (5, .ok wPayload) ∧
    ∃ e, fetch_nav_data "INF174K01LS2" wRespAllFail = (5, .error (.retryExhausted e)) := by
  constructor
  · exact fetch_nav_data_attempt_cap.1 "INF174K01LS2" wRespLateSuccess wPayload
      (by decide) (by decide)
  · exact fetch_nav_data_attempt_cap.2.1 "INF174K01LS2" wRespAllFail (by decide)

/-- C3 (counterexample): when all 5 attempts fail — here each with an HTTP
500 status error — the error surfaced to the caller is tenacity's
`RetryError` wrapping the last attempt, not the last attempt's failure
itself, because the source leaves tenacity's `reraise` option at `False`. -/
theorem fetch_nav_data_wraps_last_error :
    (fetch_nav_data "INF174K01LS2" wRespAllFail).2 =
      .error (.retryExhausted (.httpStatusError 500)) ∧
    (fetch_nav_data "INF174K01LS2" wRespAllFail).2 ≠
      .error (.attemptError (.httpStatusError 500)) := by
  constructor
  · rfl
  · decide

/-- C3 (amended): when all 5 attempts fail, `fetch_nav_data` raises the
retry-exhaustion error wrapping exactly the last (5th) attempt's failure,
so the final failure is preserved inside the surfaced error and is not
swallowed or dropped — but the surfaced value is the wrapper, not the last
failure itself. -/
theorem fetch_nav_data_exhaustion_surfaces_wrapped_last (isin : String)
    (responses : Nat → Response) (e : FetchError)
    (hfail : ∀ i, i < 4 → attemptFails isin (responses i) = true)
    (hlast : fetchAttempt isin (responses 4) = .error e) :
    fetch_nav_data isin responses = (5, .error (.retryExhausted e)) := by
  obtain ⟨e0, h0⟩ := (attemptFails_iff _ _).1 (hfail 0 (by omega))
  obtain ⟨e1, h1⟩ := (attemptFails_iff _ _).1 (hfail 1 (by omega))
  obtain ⟨e2, h2⟩ := (attemptFails_iff _ _).1 (hfail 2 (by omega))
  obtain ⟨e3, h3⟩ := (attemptFails_iff _ _).1 (hfail 3 (by omega))
  unfold fetch_nav_data
  rw [retryLoop_shift _ 0 3 e0 h0, retryLoop_shift _ 1 2 e1 h1,
    retryLoop_shift _ 2 1 e2 h2, retryLoop_shift _ 3 0 e3 h3,
    retryLoop_exhausted _ 4 e hlast]

/-- C4: a single fetch attempt returns a payload `p` if and only if the
transport call succeeds with a non-error HTTP status, the body parses as a
structured payload, the payload's `"status"` indicator equals
`"success"`, and the payload contains a `"data"` field; any violation of
these conditions makes the attempt raise a failure; and such a failure on
the first `k` attempts (`k` within the cap of 5) does not prevent a
succeeding attempt `k+1` from returning its payload normally. -/
theorem fetchAttempt_accepts_iff :
    (∀ (isin : String) (resp : Response) (p : Payload),
      fetchAttempt isin resp = .ok p ↔
        ∃ code, resp = .ok code (some p) ∧ ¬ (400 ≤ code ∧ code < 600) ∧
          p.status = some "success" ∧ p.dataField ≠ none) ∧
    (∀ (isin : String) (resp : Response),
      attemptFails isin resp = true ↔ ¬ ∃ p, fetchAttempt isin resp = .ok p) ∧
    (∀ (isin : String) (responses : Nat → Response) (k : Nat) (p : Payload),
      k < 5 →
      (∀ i, i < k → attemptFails isin (responses i) = true) →
      fetchAttempt isin (responses k) = .ok p →
      fetch_nav_data isin responses = (k + 1, .ok p)) := by
  refine ⟨?_, ?_, ?_⟩
  · intro isin resp p
    constructor
    · intro h
      cases resp with
      | transportFailure => simp [fetchAttempt] at h
      | ok code body =>
        by_cases hc : 400 ≤ code ∧ code < 600
        · simp [fetchAttempt, hc] at h
        · cases body with
          | none => simp [fetchAttempt, hc] at h
          | some q =>
            by_cases hv : ¬ q.status = some "success" ∨ q.dataField = none
            · simp only [fetchAttempt, if_neg hc, if_pos hv] at h
              exact absurd h (by simp)
            · simp only [fetchAttempt, if_neg hc, if_neg hv, Except.ok.injEq] at h
              push_neg at hv
              subst h
              exact ⟨code, rfl, hc, hv.1, hv.2⟩
    · rintro ⟨code, rfl, hc, hs, hd⟩
      have hv : ¬ (¬ p.status = some "success" ∨ p.dataField = none) := by
        push_neg
        exact ⟨hs, hd⟩
      simp only [fetchAttempt, if_neg hc, if_neg hv]
  · intro isin resp
    unfold attemptFails
    cases h : fetchAttempt isin resp <;> simp
  · intro isin responses k p hk hfail hok
    interval_cases k
    · unfold fetch_nav_data
      rw [retryLoop_ok _ 0 4 p hok]
    · obtain ⟨e0, h0⟩ := (attemptFails_iff _ _).1 (hfail 0 (by omega))
      unfold fetch_nav_data
      rw [retryLoop_shift _ 0 3 e0 h0, retryLoop_ok _ 1 3 p hok]
    · obtain ⟨e0, h0⟩ := (attemptFails_iff _ _).1 (hfail 0 (by omega))
      obtain ⟨e1, h1⟩ := (attemptFails_iff _ _).1 (hfail 1 (by omega))
      unfold fetch_nav_data
      rw [retryLoop_shift _ 0 3 e0 h0, retryLoop_shift _ 1 2 e1 h1,
        retryLoop_ok _ 2 2 p hok]
    · obtain ⟨e0, h0⟩ := (attemptFails_iff _ _).1 (hfail 0 (by omega))
      obtain ⟨e1, h1⟩ := (attemptFails_iff _ _).1 (hfail 1 (by omega))
      obtain ⟨e2, h2⟩ := (attemptFails_iff _ _).1 (hfail 2 (by omega))
      unfold fetch_nav_data
      rw [retryLoop_shift _ 0 3 e0 h0, retryLoop_shift _ 1 2 e1 h1,
        retryLoop_shift _ 2 1 e2 h2, retryLoop_ok _ 3 1 p hok]
    · obtain ⟨e0, h0⟩ := (attemptFails_iff _ _).1 (hfail 0 (by omega))
      obtain ⟨e1, h1⟩ := (attemptFails_iff _ _).1 (hfail 1 (by omega))
      obtain ⟨e2, h2⟩ := (attemptFails_iff _ _).1 (hfail 2 (by omega))
      obtain ⟨e3, h3⟩ := (attemptFails_iff _ _).1 (hfail 3 (by omega))
      unfold fetch_nav_data
      rw [retryLoop_shift _ 0 3 e0 h0, retryLoop_shift _ 1 2 e1 h1,
        retryLoop_shift _ 2 1 e2 h2, retryLoop_shift _ 3 0 e3 h3,
        retryLoop_ok _ 4 0 p hok]

/-- Concrete response pattern: the first 2 attempts hit a transport
failure, the 3rd returns a valid payload. -/
def wRespTwoFail : Nat → Response := fun n =>
  if n < 2 then Response.transportFailure else Response.ok 200 (some wPayload)

theorem fetchAttempt_accepts_iff_witness :
    fetchAttempt "INF090I01DS9" (Response.ok 200 (some wPayload)) = .ok wPayload ∧
    fetch_nav_data "INF090I01DS9" wRespTwoFail = (3, .ok wPayload) := by
  constructor
  · exact (fetchAttempt_accepts_iff.1 "INF090I01DS9" (Response.ok 200 (some wPayload))
      wPayload).mpr ⟨200, rfl, by decide, rfl, by decide⟩
  · exact fetchAttempt_accepts_iff.2.2 "INF090I01DS9" wRespTwoFail 2 wPayload
      (by decide) (by decide) (by decide)

theorem fetch_nav_data_exhaustion_witness :
    fetch_nav_data "INF846K01EW2" wRespAllFail =
      (5, .error (.retryExhausted (.httpStatusError 500))) :=
  fetch_nav_data_exhaustion_surfaces_wrapped_last "INF846K01EW2" wRespAllFail
    (.httpStatusError 500) (by decide) (by decide)

/-! ## Batch orchestrator

Embedding of `analyze_securities` together with `load_isin_data`,
`generate_statistics` and the `generate_html_report` boundary. -/

/-- A value held in one cell of a roster row or result row: the source
carries strings (ISIN, security name, other descriptive columns) and
floating-point metric values, modelled as exact rationals. -/
inductive FieldValue where
  | str (s : String)
  | num (q : ℚ)
deriving DecidableEq

/-- First-match lookup in a key/value list, the access `d[k]` on a Python
dict represented as its (unique-keyed) item list. -/
def lookupKey (k : String) : List (String × FieldValue) → Option FieldValue
  | [] => none
  | kv :: rest => if kv.1 = k then some kv.2 else lookupKey k rest

/-- Key membership, Python's `k in d` on the item-list representation. -/
def hasKey (k : String) : List (String × FieldValue) → Bool
  | [] => false
  | kv :: rest => if kv.1 = k then true else hasKey k rest

/-- Setting one key of a Python dict: an existing key keeps its position
and gets the new value; a new key is appended at the end. -/
def dictInsert (d : List (String × FieldValue)) (k : String) (v : FieldValue) :
    List (String × FieldValue) :=
  if hasKey k d then d.map (fun kv => if kv.1 = k then (kv.1, v) else kv)
  else d ++ [(k, v)]

/-- Python `dict.update`, applied key by key in the order of the update
dict: `result_row = row.to_dict()` followed by `result_row.update(stats)`
in the source. -/
def dictUpdate (d upd : List (String × FieldValue)) : List (String × FieldValue) :=
  upd.foldl (fun acc kv => dictInsert acc kv.1 kv.2) d

/-- One roster row (Security Record).  Per the input schema the roster has
an `isin` column, required for every processing step and for the failure
log line; the remaining descriptive columns follow in column order.
`toDict` is the source's `row.to_dict()`. -/
structure SecurityRecord where
  isin : String
  extraFields : List (String × FieldValue)
deriving DecidableEq

def SecurityRecord.toDict (r : SecurityRecord) : List (String × FieldValue) :=
  ("isin", .str r.isin) :: r.extraFields

/-- The six metric values computed by `generate_statistics` via the
quantstats library on one NAV series. -/
structure Stats where
  cagr : ℚ
  volatility : ℚ
  sharpe : ℚ
  sortino : ℚ
  max_drawdown : ℚ
  value_at_risk : ℚ
deriving DecidableEq

/-- The names of the six metric fields, in the source's insertion order. -/
def metricNames : List String :=
  ["cagr", "volatility", "sharpe", "sortino", "max_drawdown", "value_at_risk"]

/-- The `stats` dict built by `generate_statistics`, in the source's
insertion order. -/
def statsDict (s : Stats) : List (String × FieldValue) :=
  [("cagr", .num s.cagr), ("volatility", .num s.volatility),
   ("sharpe", .num s.sharpe), ("sortino", .num s.sortino),
   ("max_drawdown", .num s.max_drawdown), ("value_at_risk", .num s.value_at_risk)]

/-- External collaborators of one run, fixed for the run: the upstream's
response to each attempt for each ISIN, the quantstats statistics
computation on a NAV series (which may raise), and the quantstats HTML
report emission (which may raise).  `Unit` error values model the opaque
exceptions of the external libraries. -/
structure Env where
  responses : String → Nat → Response
  qsStats : List (DateTime × ℚ) → Except Unit Stats
  htmlReport : List (DateTime × ℚ) → SecurityRecord → Except Unit Unit

/-- Embedding of `generate_statistics`: delegate the six metrics to the
quantstats oracle and, on success, build the `stats` dict in the source's
insertion order. -/
def generate_statistics (qsStats : List (DateTime × ℚ) → Except Unit Stats)
    (nav_series : List (DateTime × ℚ)) : Except Unit (List (String × FieldValue)) :=
  (qsStats nav_series).map statsDict

/-- Decoding of the JSON `data` array into the `[timestamp, nav]` pairs
consumed by `process_nav_data`; a malformed row makes the frame
construction or the timestamp conversion raise, modelled as `none`. -/
def decodeRows : List RawRow → Option (List (Int × ℚ))
  | [] => some []
  | .pair ts nav :: rest => (decodeRows rest).map (fun l => (ts, nav) :: l)
  | .malformed :: _ => none

/-- What one iteration of the orchestrator loop did for one security:
how many fetch attempts were made, whether the per-security HTML report
was emitted, and the result row appended to `results` (or `none` when an
exception was caught by the `except` clause and the security skipped). -/
structure ItemOutcome where
  fetchAttempts : Nat
  reportEmitted : Bool
  resultRow : Option (List (String × FieldValue))
deriving DecidableEq

/-- Body of the per-security `try` block of `analyze_securities` together
with its `except Exception: ... continue` handler: fetch with retry, read
`nav_data["data"]`, build the series, compute statistics, emit the HTML
report, then merge `row.to_dict()` with the `stats` dict into the result
row; an exception at any stage yields `resultRow = none` (the failure is
logged and the loop continues with the next security). -/
def processSecurity (env : Env) (row : SecurityRecord) : ItemOutcome :=
  let attempts := (fetch_nav_data row.isin (env.responses row.isin)).1
  match (fetch_nav_data row.isin (env.responses row.isin)).2 with
  | .error _ => ⟨attempts, false, none⟩
  | .ok payload =>
    match payload.dataField with
    | none => ⟨attempts, false, none⟩
    | some rawRows =>
      match decodeRows rawRows with
      | none => ⟨attempts, false, none⟩
      | some pairs =>
        match generate_statistics env.qsStats (process_nav_data pairs) with
        | .error _ => ⟨attempts, false, none⟩
        | .ok stats =>
          match env.htmlReport (process_nav_data pairs) row with
          | .error _ => ⟨attempts, false, none⟩
          | .ok _ => ⟨attempts, true, some (dictUpdate row.toDict stats)⟩

/-- Externally visible effects of a run, in order of occurrence: one
upstream GET per fetch attempt, one HTML report file per successfully
reported security, and each `to_csv` write of the consolidated summary
with its file name and row data. -/
inductive Event where
  | fetchAttemptMade (isin : String)
  | htmlReportWritten (isin : String)
  | summaryWritten (filename : String) (rows : List (List (String × FieldValue)))
deriving DecidableEq

/-- Events produced by one loop iteration, derived from its outcome. -/
def securityEvents (isin : String) (o : ItemOutcome) : List Event :=
  List.replicate o.fetchAttempts (.fetchAttemptMade isin) ++
    (if o.reportEmitted then [.htmlReportWritten isin] else [])

/-- The exception raised by `load_isin_data` when `pd.read_csv` fails on
an unreadable or malformed roster file; `load_isin_data` logs it and
re-raises it unchanged. -/
inductive LoadError where
  | loadFailure (message : String)
deriving DecidableEq

/-- Embedding of `analyze_securities`: `load_isin_data` runs first and its
failure propagates uncaught; otherwise each roster row is processed in
order with per-security failures isolated, and afterwards the consolidated
summary `{report_date}_report.csv` is written from the accumulated
`results`.  `loadResult` models the outcome of `pd.read_csv(self.csv_path)`
and `today` models `datetime.now().strftime("%Y-%m-%d")`.  Returns the
run's event trace and either normal completion or the propagated load
exception. -/
def analyze_securities (loadResult : Except LoadError (List SecurityRecord))
    (env : Env) (today : String) : List Event × Except LoadError Unit :=
  match loadResult with
  | .error e => ([], .error e)
  | .ok roster =>
    ((roster.map (fun r => securityEvents r.isin (processSecurity env r))).flatten ++
      [.summaryWritten (today ++ "_report.csv")
        (roster.filterMap (fun r => (processSecurity env r).resultRow))],
     .ok ())

/-- An event is a write of the consolidated summary. -/
def isSummaryEvent : Event → Bool
  | .summaryWritten _ _ => true
  | _ => false

/-- The row data of the consolidated-summary writes in a trace. -/
def summaryRows (trace : List Event) :
    List (List (List (String × FieldValue))) :=
  trace.filterMap (fun ev =>
    match ev with
    | .summaryWritten _ rows => some rows
    | _ => none)

/-- An event with the date-derived summary file name erased; two traces
equal after this map differ at most in summary file names. -/
def eventData : Event → Event
  | .summaryWritten _ rows => .summaryWritten "" rows
  | ev => ev

theorem lookupKey_map_set (k k' : String) (v : FieldValue) (hne : k' ≠ k)
    (d : List (String × FieldValue)) :
    lookupKey k' (d.map (fun kv => if kv.1 = k then (kv.1, v) else kv)) =
      lookupKey k' d := by
  induction d with
  | nil => rfl
  | cons kv rest ih =>
    obtain ⟨a, b⟩ := kv
    by_cases ha : a = k
    · subst ha
      simp [lookupKey, Ne.symm hne, ih]
    · simp only [List.map_cons, if_neg ha]
      by_cases ha' : a = k'
      · simp [lookupKey, ha']
      · simp [lookupKey, ha', ih]

theorem lookupKey_append_right (k : String) (l l' : List (String × FieldValue))
    (h : lookupKey k l = none) : lookupKey k (l ++ l') = lookupKey k l' := by
  induction l with
  | nil => rfl
  | cons kv rest ih =>
    obtain ⟨a, b⟩ := kv
    by_cases ha : a = k
    · simp [lookupKey, ha] at h
    · simp only [lookupKey, if_neg ha] at h
      simp only [List.cons_append, lookupKey, if_neg ha]
      exact ih h

theorem hasKey_false_lookupKey (k : String) (d : List (String × FieldValue))
    (h : hasKey k d = false) : lookupKey k d = none := by
  induction d with
  | nil => rfl
  | cons kv rest ih =>
    obtain ⟨a, b⟩ := kv
    by_cases ha : a = k
    · simp [hasKey, ha] at h
    · simp only [hasKey, if_neg ha] at h
      simp only [lookupKey, if_neg ha]
      exact ih h

theorem lookupKey_dictInsert_same (d : List (String × FieldValue)) (k : String)
    (v : FieldValue) : lookupKey k (dictInsert d k v) = some v := by
  unfold dictInsert
  by_cases h : hasKey k d = true
  · rw [if_pos h]
    induction d with
    | nil => simp [hasKey] at h
    | cons kv rest ih =>
      obtain ⟨a, b⟩ := kv
      by_cases ha : a = k
      · simp [lookupKey, ha]
      · simp only [hasKey, if_neg ha] at h
        simp [lookupKey, ha, ih h]
  · rw [if_neg h]
    rw [lookupKey_append_right k d [(k, v)]
      (hasKey_false_lookupKey k d (by simpa using h))]
    simp [lookupKey]

theorem lookupKey_append_single_ne (k k' : String) (v : FieldValue) (hne : k' ≠ k)
    (d : List (String × FieldValue)) :
    lookupKey k' (d ++ [(k, v)]) = lookupKey k' d := by
  induction d with
  | nil => simp [lookupKey, Ne.symm hne]
  | cons kv rest ih =>
    obtain ⟨a, b⟩ := kv
    by_cases ha : a = k'
    · simp [lookupKey, ha]
    · simp only [List.cons_append, lookupKey, if_neg ha]
      exact ih

theorem lookupKey_dictInsert_ne (d : List (String × FieldValue)) (k k' : String)
    (v : FieldValue) (hne : k' ≠ k) :
    lookupKey k' (dictInsert d k v) = lookupKey k' d := by
  unfold dictInsert
  by_cases h : hasKey k d = true
  · rw [if_pos h]
    exact lookupKey_map_set k k' v hne d
  · rw [if_neg h]
    exact lookupKey_append_single_ne k k' v hne d

theorem lookupKey_dictUpdate_of_none (d upd : List (String × FieldValue))
    (k : String) (h : lookupKey k upd = none) :
    lookupKey k (dictUpdate d upd) = lookupKey k d := by
  induction upd generalizing d with
  | nil => rfl
  | cons kv rest ih =>
    obtain ⟨a, b⟩ := kv
    by_cases ha : a = k
    · simp [lookupKey, ha] at h
    · simp only [lookupKey, if_neg ha] at h
      show lookupKey k (dictUpdate (dictInsert d a b) rest) = lookupKey k d
      rw [ih (dictInsert d a b) h,
        lookupKey_dictInsert_ne d a k b (Ne.symm ha)]

theorem lookupKey_of_not_mem_keys (l : List (String × FieldValue)) (k : String)
    (h : k ∉ l.map Prod.fst) : lookupKey k l = none := by
  induction l with
  | nil => rfl
  | cons kv rest ih =>
    obtain ⟨a, b⟩ := kv
    simp only [List.map_cons, List.mem_cons] at h
    push_neg at h
    simp [lookupKey, Ne.symm h.1, ih h.2]

theorem lookupKey_dictUpdate_of_some (d upd : List (String × FieldValue))
    (k : String) (w : FieldValue) (h : lookupKey k upd = some w)
    (hnd : (upd.map Prod.fst).Nodup) :
    lookupKey k (dictUpdate d upd) = some w := by
  induction upd generalizing d with
  | nil => simp [lookupKey] at h
  | cons kv rest ih =>
    obtain ⟨a, b⟩ := kv
    simp only [List.map_cons, List.nodup_cons] at hnd
    by_cases ha : a = k
    · simp only [lookupKey, if_pos ha] at h
      have hrest : lookupKey k rest = none :=
        lookupKey_of_not_mem_keys rest k (ha ▸ hnd.1)
      show lookupKey k (dictUpdate (dictInsert d a b) rest) = some w
      rw [lookupKey_dictUpdate_of_none _ _ _ hrest, ← ha, ← h,
        lookupKey_dictInsert_same]
    · simp only [lookupKey, if_neg ha] at h
      exact ih (dictInsert d a b) h hnd.2

theorem lookupKey_statsDict_of_not_metric (s : Stats) (k : String)
    (h : k ∉ metricNames) : lookupKey k (statsDict s) = none := by
  simp only [metricNames, List.mem_cons, List.not_mem_nil, or_false] at h
  push_neg at h
  obtain ⟨h1, h2, h3, h4, h5, h6⟩ := h
  simp [statsDict, lookupKey, Ne.symm h1, Ne.symm h2, Ne.symm h3, Ne.symm h4,
    Ne.symm h5, Ne.symm h6]

theorem statsDict_keys_nodup (s : Stats) : ((statsDict s).map Prod.fst).Nodup := by
  simp [statsDict]

theorem lookupKey_merged_of_not_metric (d : List (String × FieldValue)) (s : Stats)
    (k : String) (h : k ∉ metricNames) :
    lookupKey k (dictUpdate d (statsDict s)) = lookupKey k d :=
  lookupKey_dictUpdate_of_none d (statsDict s) k
    (lookupKey_statsDict_of_not_metric s k h)

theorem lookupKey_merged_metric (d : List (String × FieldValue)) (s : Stats)
    (m : String) (w : FieldValue) (h : lookupKey m (statsDict s) = some w) :
    lookupKey m (dictUpdate d (statsDict s)) = some w :=
  lookupKey_dictUpdate_of_some d (statsDict s) m w h (statsDict_keys_nodup s)

theorem processSecurity_resultRow_shape (env : Env) (row : SecurityRecord)
    (d : List (String × FieldValue))
    (h : (processSecurity env row).resultRow = some d) :
    ∃ s : Stats, d = dictUpdate row.toDict (statsDict s) := by
  unfold processSecurity at h
  rcases hf : (fetch_nav_data row.isin (env.responses row.isin)).2 with e | payload <;>
    simp only [hf] at h
  · simp at h
  rcases hdf : payload.dataField with _ | rawRows <;> simp only [hdf] at h
  · simp at h
  rcases hdec : decodeRows rawRows with _ | pairs <;> simp only [hdec] at h
  · simp at h
  rcases hstats : generate_statistics env.qsStats (process_nav_data pairs) with e | st <;>
    simp only [hstats] at h
  · simp at h
  rcases hrep : env.htmlReport (process_nav_data pairs) row with e | u <;>
    simp only [hrep] at h
  · simp at h
  simp only [Option.some.injEq] at h
  unfold generate_statistics at hstats
  rcases hq : env.qsStats (process_nav_data pairs) with e | s <;> rw [hq] at hstats
  · simp [Except.map] at hstats
  · simp only [Except.map, Except.ok.injEq] at hstats
    exact ⟨s, by rw [← h, ← hstats]⟩

theorem processSecurity_resultRow_isin (env : Env) (row : SecurityRecord)
    (d : List (String × FieldValue))
    (h : (processSecurity env row).resultRow = some d) :
    lookupKey "isin" d = some (.str row.isin) := by
  obtain ⟨s, rfl⟩ := processSecurity_resultRow_shape env row d h
  rw [lookupKey_merged_of_not_metric row.toDict s "isin" (by decide)]
  simp [SecurityRecord.toDict, lookupKey]

theorem results_isin_sublist (env : Env) (roster : List SecurityRecord) :
    (roster.filterMap (fun r => (processSecurity env r).resultRow)).map
        (lookupKey "isin") |>.Sublist
      (roster.map (fun r => some (FieldValue.str r.isin))) := by
  induction roster with
  | nil => simp
  | cons r rest ih =>
    cases hr : (processSecurity env r).resultRow with
    | none =>
      simp only [List.filterMap_cons, hr, List.map_cons]
      exact ih.cons _
    | some d =>
      simp only [List.filterMap_cons, hr, List.map_cons,
        processSecurity_resultRow_isin env r d hr]
      exact ih.cons₂ _

/-- C5: for every roster that loads and every pattern of per-security
failures representable by the collaborators (fetch exhaustion, malformed
payload, statistics exception, report-emission exception), the run
completes normally; the consolidated summary holds exactly the result rows
of the successfully processed securities in roster order (a failed
security contributes `none` and is dropped by the accumulation), so the
number of rows is at most the roster length and the rows' ISINs form a
subsequence of the roster's ISINs. -/
theorem analyze_securities_isolates_failures
    (loadResult : Except LoadError (List SecurityRecord)) (env : Env)
    (today : String) (roster : List SecurityRecord)
    (h : loadResult = .ok roster) :
    (analyze_securities loadResult env today).2 = .ok () ∧
    ∃ rows,
      (analyze_securities loadResult env today).1.getLast? =
        some (.summaryWritten (today ++ "_report.csv") rows) ∧
      rows = roster.filterMap (fun r => (processSecurity env r).resultRow) ∧
      rows.length ≤ roster.length ∧
      (rows.map (lookupKey "isin")).Sublist
        (roster.map (fun r => some (FieldValue.str r.isin))) := by
  subst h
  refine ⟨rfl, roster.filterMap (fun r => (processSecurity env r).resultRow),
    ?_, rfl, List.length_filterMap_le _ _, results_isin_sublist env roster⟩
  simp [analyze_securities]

/-- Concrete collaborators for the witnesses: every ISIN except `"BAD2"`
fetches successfully on the first attempt; statistics and report emission
always succeed. -/
def wEnv : Env where
  responses := fun isin _ =>
    if isin = "BAD2" then Response.transportFailure
    else Response.ok 200 (some wPayload)
  qsStats := fun _ => Except.ok ⟨1, 2, 3, 4, 5, 6⟩
  htmlReport := fun _ _ => Except.ok ()

/-- Concrete 3-security roster whose 2nd entry fails fetch entirely. -/
def wRoster : List SecurityRecord :=
  [⟨"GOOD1", [("security_name", .str "Fund A")]⟩,
   ⟨"BAD2", [("security_name", .str "Fund B")]⟩,
   ⟨"GOOD3", [("security_name", .str "Fund C")]⟩]

theorem analyze_securities_isolates_failures_witness :
    (analyze_securities (.ok wRoster) wEnv "2026-10-12").2 = .ok () ∧
    ∃ rows,
      (analyze_securities (.ok wRoster) wEnv "2026-10-12").1.getLast? =
        some (.summaryWritten ("2026-10-12" ++ "_report.csv") rows) ∧
      rows = wRoster.filterMap (fun r => (processSecurity wEnv r).resultRow) ∧
      rows.length ≤ wRoster.length ∧
      (rows.map (lookupKey "isin")).Sublist
        (wRoster.map (fun r => some (FieldValue.str r.isin))) :=
  analyze_securities_isolates_failures (.ok wRoster) wEnv "2026-10-12" wRoster rfl

theorem securityEvents_no_summary (isin : String) (o : ItemOutcome) (ev : Event)
    (hev : ev ∈ securityEvents isin o) : isSummaryEvent ev = false := by
  unfold securityEvents at hev
  rw [List.mem_append] at hev
  rcases hev with hev | hev
  · rw [List.mem_replicate] at hev
    rw [hev.2]; rfl
  · split at hev
    · rw [List.mem_singleton] at hev
      rw [hev]; rfl
    · simp at hev

theorem analyze_trace_filter (env : Env) (today : String)
    (roster : List SecurityRecord) :
    (analyze_securities (.ok roster) env today).1.filter isSummaryEvent =
      [.summaryWritten (today ++ "_report.csv")
        (roster.filterMap (fun r => (processSecurity env r).resultRow))] := by
  have h1 : ((roster.map (fun r =>
      securityEvents r.isin (processSecurity env r))).flatten).filter
        isSummaryEvent = [] := by
    apply List.filter_eq_nil_iff.mpr
    intro ev hev
    rw [List.mem_flatten] at hev
    obtain ⟨l, hl, hevl⟩ := hev
    rw [List.mem_map] at hl
    obtain ⟨r, -, rfl⟩ := hl
    simp [securityEvents_no_summary r.isin (processSecurity env r) ev hevl]
  simp only [analyze_securities, List.filter_append, h1, List.nil_append]
  rfl

/-- C6: for every roster that loads, the run writes the consolidated
summary artifact exactly once — the only summary event in the trace is the
single write of `{today}_report.csv` — and that write is the last effect
of the run, after every roster entry has been processed; when zero
securities succeed the written artifact is the empty row list. -/
theorem summary_written_once_at_end
    (loadResult : Except LoadError (List SecurityRecord)) (env : Env)
    (today : String) (roster : List SecurityRecord)
    (h : loadResult = .ok roster) :
    ∃ rows,
      (analyze_securities loadResult env today).1.filter isSummaryEvent =
        [.summaryWritten (today ++ "_report.csv") rows] ∧
      (analyze_securities loadResult env today).1.getLast? =
        some (.summaryWritten (today ++ "_report.csv") rows) ∧
      ((∀ r ∈ roster, (processSecurity env r).resultRow = none) → rows = []) := by
  subst h
  refine ⟨roster.filterMap (fun r => (processSecurity env r).resultRow),
    analyze_trace_filter env today roster, ?_, ?_⟩
  · simp [analyze_securities]
  · intro hall
    exact List.filterMap_eq_nil_iff.mpr hall

/-- Concrete 1-security roster whose only entry fails fetch entirely. -/
def wRosterAllFail : List SecurityRecord := [⟨"BAD2", []⟩]

theorem summary_written_once_at_end_witness :
    ∃ rows,
      (analyze_securities (.ok wRosterAllFail) wEnv "2026-10-12").1.filter
          isSummaryEvent =
        [.summaryWritten ("2026-10-12" ++ "_report.csv") rows] ∧
      (analyze_securities (.ok wRosterAllFail) wEnv "2026-10-12").1.getLast? =
        some (.summaryWritten ("2026-10-12" ++ "_report.csv") rows) ∧
      ((∀ r ∈ wRosterAllFail, (processSecurity wEnv r).resultRow = none) →
        rows = []) :=
  summary_written_once_at_end (.ok wRosterAllFail) wEnv "2026-10-12"
    wRosterAllFail rfl

/-- Security record carrying the `security_name` column read by
`generate_html_report` (so every pipeline stage genuinely succeeds on it
under `wEnv`) plus a descriptive roster column that happens to be named
like the `cagr` metric. -/
def w7Record : SecurityRecord :=
  ⟨"INF7", [("security_name", .str "Fund X"), ("cagr", .num 999)]⟩

/-- The result row the run produces for `w7Record` under `wEnv`. -/
def w7MergedRow : List (String × FieldValue) :=
  [("isin", .str "INF7"), ("security_name", .str "Fund X"), ("cagr", .num 1),
   ("volatility", .num 2), ("sharpe", .num 3), ("sortino", .num 4),
   ("max_drawdown", .num 5), ("value_at_risk", .num 6)]

/-- C7 (counterexample): a successfully processed security whose roster
record carries a descriptive field named `cagr` with value 999 ends up in
the consolidated summary with that field overwritten by the computed
metric (1): `result_row.update(stats)` replaces descriptive fields whose
names collide with the six metric names, so not every descriptive field
reaches the summary unchanged. -/
theorem result_row_overwrites_metric_named_field :
    (analyze_securities (.ok [w7Record]) wEnv "2026-10-12").1.getLast? =
      some (.summaryWritten ("2026-10-12" ++ "_report.csv") [w7MergedRow]) ∧
    lookupKey "cagr" w7Record.toDict = some (.num 999) ∧
    lookupKey "cagr" w7MergedRow = some (.num 1) ∧
    (FieldValue.num 999) ≠ (FieldValue.num 1) := by
  refine ⟨?_, rfl, rfl, by decide⟩
  rfl

/-- C7 (amended): every row of the consolidated summary comes from a
successfully processed roster record and consists of that record's fields
merged with the six computed metrics: every descriptive field whose name
is not one of the six metric names keeps its roster value unchanged, and
the six metric fields carry the computed statistics — a descriptive field
named like a metric is overwritten by the metric value. -/
theorem summary_row_fields
    (loadResult : Except LoadError (List SecurityRecord)) (env : Env)
    (today : String) (roster : List SecurityRecord)
    (h : loadResult = .ok roster)
    (rows : List (List (String × FieldValue)))
    (hrows : (analyze_securities loadResult env today).1.getLast? =
      some (.summaryWritten (today ++ "_report.csv") rows)) :
    ∀ d ∈ rows, ∃ r, r ∈ roster ∧ ∃ s : Stats,
      (processSecurity env r).resultRow = some d ∧
      (∀ k, k ∉ metricNames → lookupKey k d = lookupKey k r.toDict) ∧
      lookupKey "cagr" d = some (.num s.cagr) ∧
      lookupKey "volatility" d = some (.num s.volatility) ∧
      lookupKey "sharpe" d = some (.num s.sharpe) ∧
      lookupKey "sortino" d = some (.num s.sortino) ∧
      lookupKey "max_drawdown" d = some (.num s.max_drawdown) ∧
      lookupKey "value_at_risk" d = some (.num s.value_at_risk) := by
  subst h
  have h2 : (analyze_securities (.ok roster) env today).1.getLast? =
      some (.summaryWritten (today ++ "_report.csv")
        (roster.filterMap (fun r => (processSecurity env r).resultRow))) := by
    simp [analyze_securities]
  rw [h2] at hrows
  have hrows' : roster.filterMap (fun r => (processSecurity env r).resultRow) =
      rows := by
    simpa using hrows
  subst hrows'
  intro d hd
  obtain ⟨r, hr, hres⟩ := List.mem_filterMap.mp hd
  obtain ⟨s, hshape⟩ := processSecurity_resultRow_shape env r d hres
  subst hshape
  refine ⟨r, hr, s, hres, ?_, ?_, ?_, ?_, ?_, ?_, ?_⟩
  · intro k hk
    exact lookupKey_merged_of_not_metric r.toDict s k hk
  · exact lookupKey_merged_metric _ s "cagr" _ (by simp [statsDict, lookupKey])
  · exact lookupKey_merged_metric _ s "volatility" _ (by simp [statsDict, lookupKey])
  · exact lookupKey_merged_metric _ s "sharpe" _ (by simp [statsDict, lookupKey])
  · exact lookupKey_merged_metric _ s "sortino" _ (by simp [statsDict, lookupKey])
  · exact lookupKey_merged_metric _ s "max_drawdown" _ (by simp [statsDict, lookupKey])
  · exact lookupKey_merged_metric _ s "value_at_risk" _ (by simp [statsDict, lookupKey])

theorem summary_row_fields_witness :
    ∃ r, r ∈ [w7Record] ∧ ∃ s : Stats,
      (processSecurity wEnv r).resultRow = some w7MergedRow ∧
      (∀ k, k ∉ metricNames → lookupKey k w7MergedRow = lookupKey k r.toDict) ∧
      lookupKey "cagr" w7MergedRow = some (.num s.cagr) ∧
      lookupKey "volatility" w7MergedRow = some (.num s.volatility) ∧
      lookupKey "sharpe" w7MergedRow = some (.num s.sharpe) ∧
      lookupKey "sortino" w7MergedRow = some (.num s.sortino) ∧
      lookupKey "max_drawdown" w7MergedRow = some (.num s.max_drawdown) ∧
      lookupKey "value_at_risk" w7MergedRow = some (.num s.value_at_risk) :=
  summary_row_fields (.ok [w7Record]) wEnv "2026-10-12" [w7Record] rfl
    [w7MergedRow] (by rfl) w7MergedRow (List.mem_singleton.mpr rfl)

/-- C8: when the roster load fails, `analyze_securities` propagates the
load exception itself to the top level and the run has performed no
externally visible effect: no fetch attempt, no per-security report, and
no consolidated-summary write. -/
theorem load_failure_aborts
    (loadResult : Except LoadError (List SecurityRecord)) (env : Env)
    (today : String) (e : LoadError) (h : loadResult = .error e) :
    (analyze_securities loadResult env today).1 = [] ∧
    (analyze_securities loadResult env today).2 = .error e := by
  subst h
  exact ⟨rfl, rfl⟩

theorem load_failure_aborts_witness :
    (analyze_securities (.error (.loadFailure "No such file or directory"))
        wEnv "2026-10-12").1 = [] ∧
    (analyze_securities (.error (.loadFailure "No such file or directory"))
        wEnv "2026-10-12").2 = .error (.loadFailure "No such file or directory") :=
  load_failure_aborts _ wEnv "2026-10-12" _ rfl

/-- C9: two runs over the same loaded roster with identical collaborators
(identical upstream responses per attempt, identical statistics and report
behaviour) differing only in the run date produce the same trace up to the
date-derived summary file name — in particular the same summary row data
(same descriptive fields and same six metric values for every row) and the
same completion status. -/
theorem run_data_independent_of_date
    (loadResult : Except LoadError (List SecurityRecord)) (env : Env)
    (d₁ d₂ : String) :
    (analyze_securities loadResult env d₁).1.map eventData =
      (analyze_securities loadResult env d₂).1.map eventData ∧
    summaryRows (analyze_securities loadResult env d₁).1 =
      summaryRows (analyze_securities loadResult env d₂).1 ∧
    (analyze_securities loadResult env d₁).2 =
      (analyze_securities loadResult env d₂).2 := by
  cases loadResult with
  | error e => exact ⟨rfl, rfl, rfl⟩
  | ok roster =>
    refine ⟨?_, ?_, rfl⟩
    · simp [analyze_securities, eventData]
    · simp [analyze_securities, summaryRows, List.filterMap_append]

end NavAnalyzer
